import Mathlib

/-!
Verification of the OrientAI core (`orient_ai.py`): a scoring function
`Program.score_for` and a ranking routine `recommend_programs`.

Numbers are modelled as exact rationals (`ℚ`); Python dictionaries as
association lists with first-match lookup; Python sets built by `set(...)`
as deduplicated lists.  Python's stable `list.sort(key=..., reverse=True)`
is modelled by `List.mergeSort` with the reversed comparison, which is
stable and keeps equal keys in input order, exactly as CPython does.
`scored[:top_k]` follows Python slice semantics, including negative
`top_k` (counting from the end of the list).
-/

namespace OrientAI

/-- `StudentProfile` from `orient_ai.py`: name, grades per subject,
interests and aspirations (keyword lists). -/
structure StudentProfile where
  name : String
  grades : List (String × ℚ)
  interests : List String
  aspirations : List String

/-- `Program` from `orient_ai.py`: identity, recommended minimum grades
per subject, and descriptive tags. -/
structure Program where
  id : String
  name : String
  domain : String
  min_grades : List (String × ℚ)
  tags : List String

/-- `student.grades.get(subject, 0.0)`: dictionary lookup with default 0. -/
def getGrade (grades : List (String × ℚ)) (subject : String) : ℚ :=
  (grades.lookup subject).getD 0

/-- The per-subject normalized term of the grade component:
`normalized = 0.5 + diff / 10.0` then `max(0.0, min(1.0, normalized))`. -/
def normTerm (student_grade required_grade : ℚ) : ℚ :=
  max 0 (min 1 (0.5 + (student_grade - required_grade) / 10))

/-- The `grade_score` local of `Program.score_for` (`orient_ai.py` lines 47–60):
0 for an empty `min_grades` dict, otherwise the mean of the per-subject
normalized terms. -/
def grade_score (p : Program) (student : StudentProfile) : ℚ :=
  if p.min_grades = [] then 0
  else
    let scores := p.min_grades.map (fun sr => normTerm (getGrade student.grades sr.1) sr.2)
    scores.sum / (scores.length : ℚ)

/-- The `common_tags` local (`orient_ai.py` line 62):
`set(self.tags) & set(student.interests)`, as the deduplicated list of
tags that occur among the interests. -/
def common_tags (p : Program) (student : StudentProfile) : List String :=
  p.tags.dedup.filter (fun t => t ∈ student.interests)

/-- The `interest_score` local (`orient_ai.py` lines 63–66). -/
def interest_score (p : Program) (student : StudentProfile) : ℚ :=
  if p.tags ≠ [] then ((common_tags p student).length : ℚ) / (p.tags.length : ℚ) else 0

/-- The `common_aspirations` local (`orient_ai.py` line 68):
`set(self.tags) & set(student.aspirations)`. -/
def common_aspirations (p : Program) (student : StudentProfile) : List String :=
  p.tags.dedup.filter (fun t => t ∈ student.aspirations)

/-- The `aspiration_score` local (`orient_ai.py` line 69). -/
def aspiration_score (p : Program) (student : StudentProfile) : ℚ :=
  if common_aspirations p student ≠ [] then 1 else 0

/-- `Program.score_for` from `orient_ai.py`, lines 38–72. -/
def Program.score_for (p : Program) (student : StudentProfile) : ℚ :=
  0.6 * grade_score p student + 0.25 * interest_score p student
    + 0.15 * aspiration_score p student

/-- The comparison passed to the sort: `key=lambda x: x[1], reverse=True`,
i.e. `a` may stay before `b` iff `b`'s score is `≤` `a`'s. -/
def byScoreDesc (a b : Program × ℚ) : Bool := decide (b.2 ≤ a.2)

/-- Python list slicing `l[:k]` for an arbitrary integer `k`:
for `k ≥ 0` take the first `k` elements, for `k < 0` the endpoint is
`len(l) + k`, truncated at 0. -/
def pySlice {α : Type} (l : List α) (k : ℤ) : List α :=
  if 0 ≤ k then l.take k.toNat else l.take (l.length - (-k).toNat)

/-- `recommend_programs` from `orient_ai.py`, lines 74–86. -/
def recommend_programs (student : StudentProfile) (programs : List Program)
    (top_k : ℤ) : List (Program × ℚ) :=
  let scored := programs.map (fun p => (p, p.score_for student))
  pySlice (scored.mergeSort byScoreDesc) top_k

/-- `build_example_programs` from `orient_ai.py`, lines 88–122. -/
def build_example_programs : List Program :=
  [ { id := "ing_info",
      name := "Cycle Prépa + Ingénieur Informatique",
      domain := "Informatique",
      min_grades := [("maths", 14), ("physique", 12), ("francais", 10)],
      tags := ["informatique", "programmation", "algorithmes", "intelligence artificielle"] },
    { id := "medecine",
      name := "Médecine",
      domain := "Santé",
      min_grades := [("maths", 12), ("physique", 13), ("svt", 15), ("francais", 12)],
      tags := ["santé", "biologie", "contact humain", "hôpital"] },
    { id := "eco_gestion",
      name := "Économie & Gestion",
      domain := "Business",
      min_grades := [("maths", 11), ("francais", 12), ("philo", 10)],
      tags := ["économie", "management", "entrepreneuriat", "finance"] },
    { id := "lettres",
      name := "Lettres & Sciences Humaines",
      domain := "Lettres",
      min_grades := [("francais", 14), ("philo", 13), ("langues", 14)],
      tags := ["littérature", "philosophie", "langues", "écriture"] } ]

/-! ### Spec-side component definitions (for the refinement claim)

These three definitions follow the spec's wording, treating `tags`,
`interests` and `aspirations` as sets; they are compared with the
source-derived components above. -/

/-- Spec wording: grade component is 0 when `min_grades` is empty, else the
arithmetic mean over `min_grades` entries of
`clamp(0.5 + (student_grade - required)/10, 0, 1)`, the student's grade
defaulting to 0 for absent subjects. -/
def grade_score_spec (p : Program) (s : StudentProfile) : ℚ :=
  if p.min_grades = [] then 0
  else (p.min_grades.map
      (fun e => min 1 (max 0 (0.5 + (getGrade s.grades e.1 - e.2) / 10)))).sum
    / (p.min_grades.length : ℚ)

/-- Spec wording: interest component is 0 when `tags` is empty, else
`|tags ∩ interests| / |tags|` with `tags` read as a set. -/
def interest_score_spec (p : Program) (s : StudentProfile) : ℚ :=
  if p.tags = [] then 0
  else ((p.tags.dedup.filter (fun t => t ∈ s.interests)).length : ℚ)
    / (p.tags.dedup.length : ℚ)

/-- Spec wording: aspiration component is 1 if `tags ∩ aspirations` is
non-empty, else 0. -/
def aspiration_score_spec (p : Program) (s : StudentProfile) : ℚ :=
  if p.tags.dedup.filter (fun t => t ∈ s.aspirations) = [] then 0 else 1

/-! ### Concrete fixtures used by witnesses and counterexamples -/

/-- The student of the spec's worked example. -/
def exampleStudent : StudentProfile :=
  { name := "Alice",
    grades := [("maths", 16), ("physique", 14), ("francais", 12)],
    interests := ["informatique", "algorithmes"],
    aspirations := ["ingénieur"] }

def pA : Program :=
  { id := "a", name := "A", domain := "d", min_grades := [], tags := ["x"] }

def pB : Program :=
  { id := "b", name := "B", domain := "d", min_grades := [("m", 10)], tags := [] }

def student0 : StudentProfile :=
  { name := "s", grades := [], interests := [], aspirations := [] }

/-! ### Component bounds -/

lemma normTerm_nonneg (g r : ℚ) : 0 ≤ normTerm g r := le_max_left _ _

lemma normTerm_le_one (g r : ℚ) : normTerm g r ≤ 1 :=
  max_le (by norm_num) (min_le_left _ _)

lemma grade_score_nonneg (p : Program) (s : StudentProfile) : 0 ≤ grade_score p s := by
  unfold grade_score
  split
  · exact le_rfl
  · exact div_nonneg
      (List.sum_nonneg (by
        intro x hx
        obtain ⟨sr, -, rfl⟩ := List.mem_map.mp hx
        exact normTerm_nonneg _ _))
      (Nat.cast_nonneg _)

lemma grade_score_le_one (p : Program) (s : StudentProfile) : grade_score p s ≤ 1 := by
  unfold grade_score
  split
  · exact zero_le_one
  · rename_i hne
    have hlen : 0 < (p.min_grades.map
        (fun sr => normTerm (getGrade s.grades sr.1) sr.2)).length := by
      simpa [List.length_pos] using hne
    rw [div_le_one (by exact_mod_cast hlen)]
    calc (p.min_grades.map (fun sr => normTerm (getGrade s.grades sr.1) sr.2)).sum
        ≤ (p.min_grades.map (fun sr => normTerm (getGrade s.grades sr.1) sr.2)).length • (1 : ℚ) :=
          List.sum_le_card_nsmul _ 1 (by
            intro x hx
            obtain ⟨sr, -, rfl⟩ := List.mem_map.mp hx
            exact normTerm_le_one _ _)
      _ = _ := by simp

lemma interest_score_nonneg (p : Program) (s : StudentProfile) : 0 ≤ interest_score p s := by
  unfold interest_score
  split
  · exact div_nonneg (Nat.cast_nonneg _) (Nat.cast_nonneg _)
  · exact le_rfl

lemma interest_score_le_one (p : Program) (s : StudentProfile) : interest_score p s ≤ 1 := by
  unfold interest_score
  split
  · rename_i hne
    have hlen : 0 < p.tags.length := List.length_pos.mpr hne
    rw [div_le_one (by exact_mod_cast hlen)]
    have h1 : (common_tags p s).length ≤ p.tags.dedup.length :=
      List.length_filter_le _ _
    have h2 : p.tags.dedup.length ≤ p.tags.length :=
      (List.dedup_sublist _).length_le
    exact_mod_cast h1.trans h2
  · exact zero_le_one

lemma aspiration_score_nonneg (p : Program) (s : StudentProfile) :
    0 ≤ aspiration_score p s := by
  unfold aspiration_score; split <;> norm_num

lemma aspiration_score_le_one (p : Program) (s : StudentProfile) :
    aspiration_score p s ≤ 1 := by
  unfold aspiration_score; split <;> norm_num

/-- C1: for every profile and every program, the score returned by
`score_for` lies in the closed interval `[0, 1]`. -/
theorem score_for_mem_unit_interval (p : Program) (s : StudentProfile) :
    0 ≤ p.score_for s ∧ p.score_for s ≤ 1 := by
  have hg₀ := grade_score_nonneg p s
  have hg₁ := grade_score_le_one p s
  have hi₀ := interest_score_nonneg p s
  have hi₁ := interest_score_le_one p s
  have ha₀ := aspiration_score_nonneg p s
  have ha₁ := aspiration_score_le_one p s
  unfold Program.score_for
  constructor <;> nlinarith

/-- C2: `score_for` returns exactly
`0.60·grade_score + 0.25·interest_score + 0.15·aspiration_score`, with the
three components as worded in the spec (tags read as a set, hence the
no-duplicates hypothesis). -/
theorem score_for_eq_weighted_components (p : Program) (s : StudentProfile)
    (h : p.tags.Nodup) :
    p.score_for s = 0.6 * grade_score_spec p s + 0.25 * interest_score_spec p s
      + 0.15 * aspiration_score_spec p s := by
  have hdedup : p.tags.dedup = p.tags := List.dedup_eq_self.mpr h
  have hg : grade_score p s = grade_score_spec p s := by
    unfold grade_score grade_score_spec normTerm
    have hclamp : ∀ x : ℚ, max 0 (min 1 x) = min 1 (max 0 x) := by
      intro x
      rw [min_max_distrib_left]
      norm_num

    simp only [hclamp, List.length_map]
  have hi : interest_score p s = interest_score_spec p s := by
    unfold interest_score interest_score_spec common_tags
    by_cases htags : p.tags = [] <;> simp [htags, hdedup]
  have ha : aspiration_score p s = aspiration_score_spec p s := by
    unfold aspiration_score aspiration_score_spec common_aspirations
    by_cases hasp : p.tags.dedup.filter (fun t => t ∈ s.aspirations) = [] <;>
      simp [hasp]
  rw [Program.score_for, hg, hi, ha]

/-- Witness for C2 at a concrete program and profile. -/
theorem score_for_eq_weighted_components_witness :
    pA.score_for student0 = 0.6 * grade_score_spec pA student0
      + 0.25 * interest_score_spec pA student0
      + 0.15 * aspiration_score_spec pA student0 :=
  score_for_eq_weighted_components pA student0 (by decide)

/-- C6: in the grade component, a surplus of 5 or more over the required
grade makes the subject's normalized term exactly 1, and a deficit of 5 or
more makes it exactly 0 (the student's grade defaulting to 0 when absent,
as `getGrade` does). -/
theorem grade_term_saturates (grades : List (String × ℚ)) (subj : String) (r : ℚ) :
    (5 ≤ getGrade grades subj - r → normTerm (getGrade grades subj) r = 1) ∧
      (getGrade grades subj - r ≤ -5 → normTerm (getGrade grades subj) r = 0) := by
  constructor
  · intro h
    unfold normTerm
    have h1 : (1 : ℚ) ≤ 0.5 + (getGrade grades subj - r) / 10 := by linarith
    rw [min_eq_left h1, max_eq_right zero_le_one]
  · intro h
    unfold normTerm
    have h1 : 0.5 + (getGrade grades subj - r) / 10 ≤ 0 := by linarith
    have h2 : min 1 (0.5 + (getGrade grades subj - r) / 10) ≤ 0 :=
      le_trans (min_le_right _ _) h1
    rw [max_eq_left h2]

/-- Witness for C6: a 5-point surplus on a present subject gives term 1; an
absent subject (grade 0) against requirement 3 gives term 0. -/
theorem grade_term_saturates_witness :
    (5 ≤ getGrade [("maths", 19)] "maths" - 14 ∧
        normTerm (getGrade [("maths", 19)] "maths") 14 = 1) ∧
      (getGrade ([] : List (String × ℚ)) "maths" - 8 ≤ -5 ∧
        normTerm (getGrade ([] : List (String × ℚ)) "maths") 8 = 0) :=
  ⟨⟨by simp [getGrade]; norm_num,
    (grade_term_saturates [("maths", 19)] "maths" 14).1 (by simp [getGrade]; norm_num)⟩,
   ⟨by simp [getGrade]; norm_num,
    (grade_term_saturates [] "maths" 8).2 (by simp [getGrade]; norm_num)⟩⟩

/-- C7: for the first example program (`ing_info`) and the worked-example
student, `score_for` returns exactly 0.545. -/
theorem worked_example_score :
    (build_example_programs.map (fun p => p.score_for exampleStudent)).head?
      = some 0.545 := by
  simp only [build_example_programs, List.map_cons, List.head?_cons, Option.some.injEq]
  simp only [Program.score_for, grade_score, interest_score, aspiration_score,
    common_tags, common_aspirations, normTerm, getGrade, exampleStudent]
  simp [List.lookup_cons]
  norm_num

/-! ### Division-checked variants (for the no-failure claim)

`qdiv` is division that fails on a zero divisor; the `_checked` functions
re-run the source computations with every division checked, so proving
them equal to `some` of the unchecked result shows the division-by-zero
branches are unreachable. -/

/-- Division returning `none` on a zero divisor. -/
def qdiv (a b : ℚ) : Option ℚ := if b = 0 then none else some (a / b)

/-- `score_for` with both of its divisions checked. -/
def score_for_checked (p : Program) (student : StudentProfile) : Option ℚ := do
  let grade_score ←
    if p.min_grades = [] then some 0
    else
      let scores := p.min_grades.map (fun sr => normTerm (getGrade student.grades sr.1) sr.2)
      qdiv scores.sum (scores.length : ℚ)
  let interest_score ←
    if p.tags ≠ [] then qdiv ((common_tags p student).length : ℚ) (p.tags.length : ℚ)
    else some 0
  let aspiration_score := if common_aspirations p student ≠ [] then (1 : ℚ) else 0
  some (0.6 * grade_score + 0.25 * interest_score + 0.15 * aspiration_score)

/-- `recommend_programs` with every call to the scorer checked. -/
def recommend_programs_checked (student : StudentProfile) (programs : List Program)
    (top_k : ℤ) : Option (List (Program × ℚ)) := do
  let scored ← programs.mapM (fun p => (score_for_checked p student).map (fun q => (p, q)))
  some (pySlice (scored.mergeSort byScoreDesc) top_k)

lemma score_for_checked_eq (p : Program) (s : StudentProfile) :
    score_for_checked p s = some (p.score_for s) := by
  by_cases hmg : p.min_grades = [] <;> by_cases htags : p.tags = [] <;>
    by_cases hca : common_aspirations p s = [] <;>
    simp [score_for_checked, Program.score_for, grade_score, interest_score,
      aspiration_score, qdiv, hmg, htags, hca, List.length_eq_zero]

lemma mapM_scored (s : StudentProfile) (c : List Program) :
    c.mapM (fun p => (score_for_checked p s).map (fun q => (p, q)))
      = some (c.map fun p => (p, p.score_for s)) := by
  induction c with
  | nil => rfl
  | cons p rest ih =>
      rw [List.mapM_cons, ih, score_for_checked_eq]
      rfl

/-- C8: `score_for` and `recommend_programs` are total: the
division-checked variants never hit their `none` branches and agree with
the unchecked functions on every input. -/
theorem score_and_recommend_never_fail (p : Program) (s : StudentProfile)
    (c : List Program) (k : ℤ) :
    score_for_checked p s = some (p.score_for s) ∧
      recommend_programs_checked s c k = some (recommend_programs s c k) := by
  refine ⟨score_for_checked_eq p s, ?_⟩
  simp only [recommend_programs_checked]
  rw [mapM_scored]
  rfl

/-! ### Length of the recommendation list -/

lemma length_pySlice {α : Type} (l : List α) (k : ℤ) :
    (pySlice l k).length
      = if 0 ≤ k then min k.toNat l.length else l.length - (-k).toNat := by
  unfold pySlice
  split <;> simp [List.length_take]

lemma recommend_length_aux (s : StudentProfile) (c : List Program) (k : ℤ) :
    (recommend_programs s c k).length
      = if 0 ≤ k then min k.toNat c.length else c.length - (-k).toNat := by
  simp only [recommend_programs]
  rw [length_pySlice]
  simp

/-- C3 (amended): the result has length `min(k, len(catalog))` for `k ≥ 0`
(so an empty catalog yields an empty result); for `k < 0` Python slice
semantics give length `len(catalog) - |k|`, truncated at zero, not the
empty sequence. -/
theorem recommend_programs_length (s : StudentProfile) (c : List Program) (k : ℤ) :
    (recommend_programs s c k).length
      = if 0 ≤ k then min k.toNat c.length else c.length - (-k).toNat :=
  recommend_length_aux s c k

/-- C3 counterexample: `top_k = -1 ≤ 0` on a two-program catalog returns
one entry, not the empty sequence. -/
theorem recommend_programs_neg_topk_counterexample :
    (-1 : ℤ) ≤ 0 ∧ recommend_programs student0 [pA, pB] (-1) ≠ [] := by
  refine ⟨by decide, fun h => ?_⟩
  have hlen := congrArg List.length h
  rw [recommend_length_aux] at hlen
  norm_num [pA, pB] at hlen

/-! ### Order and stability of the sort -/

lemma byScoreDesc_trans (a b c : Program × ℚ)
    (hab : byScoreDesc a b) (hbc : byScoreDesc b c) : byScoreDesc a c := by
  simp only [byScoreDesc, decide_eq_true_eq] at *
  exact le_trans hbc hab

lemma byScoreDesc_total (a b : Program × ℚ) : byScoreDesc a b || byScoreDesc b a := by
  simp only [byScoreDesc, Bool.or_eq_true, decide_eq_true_eq]
  exact le_total _ _

lemma recommend_pairwise (s : StudentProfile) (c : List Program) (k : ℤ) :
    (recommend_programs s c k).Pairwise (fun a b => b.2 ≤ a.2) := by
  have hsorted : ((c.map fun p => (p, p.score_for s)).mergeSort byScoreDesc).Pairwise
      (fun a b => byScoreDesc a b) :=
    List.sorted_mergeSort byScoreDesc_trans byScoreDesc_total _
  have himp : ∀ l : List (Program × ℚ),
      l.Pairwise (fun a b => byScoreDesc a b) → l.Pairwise (fun a b => b.2 ≤ a.2) :=
    fun l h => h.imp (by intro a b hab; simpa [byScoreDesc] using hab)
  simp only [recommend_programs, pySlice]
  split <;> exact himp _ (hsorted.sublist (List.take_sublist _ _))

/-- C5: the output of `recommend_programs` is sorted by score in
non-increasing order: each entry's score is at least the next one's. -/
theorem recommend_programs_sorted_desc (s : StudentProfile) (c : List Program)
    (k : ℤ) (i : ℕ) (d : Program × ℚ)
    (h : i + 1 < (recommend_programs s c k).length) :
    ((recommend_programs s c k).getD (i + 1) d).2
      ≤ ((recommend_programs s c k).getD i d).2 := by
  have hp := recommend_pairwise s c k
  rw [List.pairwise_iff_getElem] at hp
  have hi : i < (recommend_programs s c k).length := by omega
  rw [List.getD_eq_getElem _ _ h, List.getD_eq_getElem _ _ hi]
  exact hp i (i + 1) hi h (by omega)

/-- Witness for C5 on a concrete two-program catalog. -/
theorem recommend_programs_sorted_desc_witness :
    0 + 1 < (recommend_programs student0 [pA, pB] 2).length ∧
      ((recommend_programs student0 [pA, pB] 2).getD (0 + 1) (pA, 0)).2
        ≤ ((recommend_programs student0 [pA, pB] 2).getD 0 (pA, 0)).2 :=
  ⟨by rw [recommend_length_aux]; norm_num,
   recommend_programs_sorted_desc student0 [pA, pB] 2 0 (pA, 0)
     (by rw [recommend_length_aux]; norm_num)⟩

lemma filter_score_pairwise (l : List (Program × ℚ)) (q : ℚ) :
    (l.filter (fun x => decide (x.2 = q))).Pairwise (fun a b => byScoreDesc a b) := by
  apply List.pairwise_of_forall_mem_list
  intro a ha b hb
  rw [List.mem_filter] at ha hb
  have ha2 : a.2 = q := of_decide_eq_true ha.2
  have hb2 : b.2 = q := of_decide_eq_true hb.2
  simp [byScoreDesc, ha2, hb2]

lemma filter_mergeSort_score (l : List (Program × ℚ)) (q : ℚ) :
    (l.mergeSort byScoreDesc).filter (fun x => decide (x.2 = q))
      = l.filter (fun x => decide (x.2 = q)) := by
  have hsub : List.Sublist (l.filter (fun x => decide (x.2 = q))) (l.mergeSort byScoreDesc) :=
    List.sublist_mergeSort byScoreDesc_trans byScoreDesc_total
      (filter_score_pairwise l q) (List.filter_sublist l)
  have hsub2 : List.Sublist (l.filter (fun x => decide (x.2 = q)))
      ((l.mergeSort byScoreDesc).filter (fun x => decide (x.2 = q))) := by
    have h2 := hsub.filter (fun x => decide (x.2 = q))
    have h3 : (l.filter (fun x => decide (x.2 = q))).filter (fun x => decide (x.2 = q))
        = l.filter (fun x => decide (x.2 = q)) :=
      List.filter_eq_self.mpr (fun a ha => (List.mem_filter.mp ha).2)
    rwa [h3] at h2
  have hlen : ((l.mergeSort byScoreDesc).filter (fun x => decide (x.2 = q))).length
      = (l.filter (fun x => decide (x.2 = q))).length :=
    ((List.mergeSort_perm l byScoreDesc).filter _).length_eq
  exact (hsub2.eq_of_length hlen.symm).symm

/-- C4: stability after truncation — for every score value `q`, the
equal-score entries of the output are an initial segment, in order, of the
equal-score entries of the scored catalog in catalog order. -/
theorem recommend_programs_stable (s : StudentProfile) (c : List Program)
    (k : ℤ) (q : ℚ) :
    ∃ t, (recommend_programs s c k).filter (fun x => decide (x.2 = q)) ++ t
      = (c.map fun p => (p, p.score_for s)).filter (fun x => decide (x.2 = q)) := by
  have key : ∀ n : ℕ,
      ((((c.map fun p => (p, p.score_for s)).mergeSort byScoreDesc).take n).filter
          (fun x => decide (x.2 = q)))
        ++ ((((c.map fun p => (p, p.score_for s)).mergeSort byScoreDesc).drop n).filter
          (fun x => decide (x.2 = q)))
      = (c.map fun p => (p, p.score_for s)).filter (fun x => decide (x.2 = q)) := by
    intro n
    rw [← List.filter_append, List.take_append_drop, filter_mergeSort_score]
  simp only [recommend_programs, pySlice]
  split
  · exact ⟨_, key _⟩
  · exact ⟨_, key _⟩

/-! ### Monotonicity in grades and field-dependence -/

lemma normTerm_mono (r : ℚ) {g₁ g₂ : ℚ} (h : g₂ ≤ g₁) :
    normTerm g₂ r ≤ normTerm g₁ r := by
  unfold normTerm
  have hd : 0.5 + (g₂ - r) / 10 ≤ 0.5 + (g₁ - r) / 10 := by linarith
  exact max_le_max le_rfl (min_le_min le_rfl hd)

lemma grade_score_mono (p : Program) (s₁ s₂ : StudentProfile)
    (hg : ∀ subj, getGrade s₂.grades subj ≤ getGrade s₁.grades subj) :
    grade_score p s₂ ≤ grade_score p s₁ := by
  unfold grade_score
  split
  · exact le_rfl
  · simp only [List.length_map]
    have hsum : (p.min_grades.map (fun sr => normTerm (getGrade s₂.grades sr.1) sr.2)).sum
        ≤ (p.min_grades.map (fun sr => normTerm (getGrade s₁.grades sr.1) sr.2)).sum :=
      List.sum_le_sum (fun sr _ => normTerm_mono sr.2 (hg sr.1))
    gcongr

/-- C9: `score_for` is monotone in the student's grades — with identical
interests and aspirations, a profile whose grade for every subject (absent
subjects counting as 0) is at least the other's scores at least as high. -/
theorem score_for_grade_monotone (p : Program) (s₁ s₂ : StudentProfile)
    (hint : s₁.interests = s₂.interests) (hasp : s₁.aspirations = s₂.aspirations)
    (hg : ∀ subj, getGrade s₂.grades subj ≤ getGrade s₁.grades subj) :
    p.score_for s₂ ≤ p.score_for s₁ := by
  have hgs := grade_score_mono p s₁ s₂ hg
  have hi : interest_score p s₂ = interest_score p s₁ := by
    unfold interest_score common_tags
    rw [hint]
  have ha : aspiration_score p s₂ = aspiration_score p s₁ := by
    unfold aspiration_score common_aspirations
    rw [hasp]
  unfold Program.score_for
  rw [hi, ha]
  linarith

/-- A student identical to `student0` except for one recorded grade. -/
def studentM : StudentProfile :=
  { name := "m", grades := [("m", 10)], interests := [], aspirations := [] }

/-- Witness for C9: raising the single recorded grade from nothing to 10
cannot lower the score of `pB`. -/
theorem score_for_grade_monotone_witness :
    pB.score_for student0 ≤ pB.score_for studentM :=
  score_for_grade_monotone pB studentM student0 rfl rfl (by
    intro subj
    simp only [student0, studentM, getGrade, List.lookup_nil, Option.getD_none]
    cases hb : (subj == "m") <;> simp [List.lookup_cons, hb])

/-- C10: `score_for` depends only on `min_grades`, `tags`, `grades`,
`interests` and `aspirations`; the student's name and the program's id,
name and domain are irrelevant to the score. -/
theorem score_for_ignores_identity (p₁ p₂ : Program) (s₁ s₂ : StudentProfile)
    (hmg : p₁.min_grades = p₂.min_grades) (htags : p₁.tags = p₂.tags)
    (hgr : s₁.grades = s₂.grades) (hint : s₁.interests = s₂.interests)
    (hasp : s₁.aspirations = s₂.aspirations) :
    p₁.score_for s₁ = p₂.score_for s₂ := by
  unfold Program.score_for grade_score interest_score aspiration_score
    common_tags common_aspirations
  rw [hmg, htags, hgr, hint, hasp]

/-- A program identical to `pA` in `min_grades` and `tags` but with
different id, name and domain. -/
def pA2 : Program :=
  { id := "a2", name := "A2", domain := "d2", min_grades := [], tags := ["x"] }

/-- A student identical to `student0` except for the name. -/
def student0b : StudentProfile :=
  { name := "zz", grades := [], interests := [], aspirations := [] }

/-- Witness for C10: renaming the student and re-identifying the program
leaves the score unchanged. -/
theorem score_for_ignores_identity_witness :
    pA.score_for student0 = pA2.score_for student0b :=
  score_for_ignores_identity pA pA2 student0 student0b rfl rfl rfl rfl rfl

end OrientAI
